import Mathlib

/-!
Shallow embedding of the FastAPI application in `main.py`: pydantic models
(`HairColor`, `Location`, `PersonBase`, `Person`, `PersonOut`, `LoginOut`),
their field-level validation, and the route handlers
(`create_person`, `show_person`, `update_person`, `login`, `contact`,
`post_image`) together with the framework behaviour that matters for the
responses: collected 422 validation errors, `response_model` filtering and
JSON serialization of returned values.
-/

/-- A scalar JSON value as produced by the serialization of the handlers
(all response objects of this app are flat). -/
inductive JScalar
  | null
  | s (v : String)
  | i (v : Int)
  | b (v : Bool)
  | q (v : ℚ)
deriving DecidableEq

/-- One field-level validation error: the field location (name) and the
human-readable message, as collected by pydantic. -/
structure FieldError where
  field : String
  msg : String
deriving DecidableEq

/-- A response body: a bare scalar (e.g. `contact` returns the user-agent
string), a flat JSON object, or a 422 list of collected field errors. -/
inductive JBody
  | scalar (v : JScalar)
  | obj (fields : List (String × JScalar))
  | errors (es : List FieldError)
deriving DecidableEq

/-- An HTTP response: status code and body. -/
structure HttpResponse where
  status : Nat
  body : JBody
deriving DecidableEq

/-- Embedding of `class HairColor(Enum)` of `main.py`: the five literal values. -/
inductive HairColor
  | white
  | brown
  | black
  | blonde
  | red
deriving DecidableEq

/-- The string value of a `HairColor` member (its enum value). -/
def HairColor.val : HairColor → String
  | .white => "white"
  | .brown => "brown"
  | .black => "black"
  | .blonde => "blonde"
  | .red => "red"

/-- Pydantic coercion of a raw string into the `HairColor` enum: an exact,
case-sensitive lookup among the five declared values. -/
def HairColor.ofString? (s : String) : Option HairColor :=
  if s = "white" then some .white
  else if s = "brown" then some .brown
  else if s = "black" then some .black
  else if s = "blonde" then some .blonde
  else if s = "red" then some .red
  else none

/-- Embedding of `class Location(BaseModel)`: city, state, country. -/
structure Location where
  city : String
  state : String
  country : String
deriving DecidableEq

/-- Embedding of `class PersonBase(BaseModel)`: the shared person shape. -/
structure PersonBase where
  first_name : String
  last_name : String
  age : Int
  hair_color : Option HairColor
  is_married : Option Bool
deriving DecidableEq

/-- Embedding of `class Person(PersonBase)`: adds the required `password` field. -/
structure Person extends PersonBase where
  password : String
deriving DecidableEq

/-- Embedding of `class PersonOut(PersonBase): pass` — same fields as `PersonBase`. -/
structure PersonOut extends PersonBase
deriving DecidableEq

/-- Embedding of `class LoginOut(BaseModel)`: username (max 20 chars) and message with
default `"Login Succesfully!"`. -/
structure LoginOut where
  username : String
  message : String := "Login Succesfully!"
deriving DecidableEq

/-- Raw (already transport-decoded) payload for a `Person` body: a field is
`none` when absent from the payload. -/
structure RawPerson where
  first_name : Option String
  last_name : Option String
  age : Option Int
  hair_color : Option String
  is_married : Option Bool
  password : Option String
deriving DecidableEq

/-- Raw payload for a `Location` body. -/
structure RawLocation where
  city : Option String
  state : Option String
  country : Option String
deriving DecidableEq

/-- Validation of one required string field with a `min_length` and an
optional `max_length`, as declared with `Field(...)` / `Form(...)`. -/
def vStr (name : String) (minL : Nat) (maxL : Option Nat) (v : Option String) :
    Except FieldError String :=
  match v with
  | none => .error ⟨name, "field required"⟩
  | some s =>
    if s.length < minL then
      .error ⟨name, "ensure this value has at least " ++ toString minL ++ " characters"⟩
    else
      match maxL with
      | some m =>
        if m < s.length then
          .error ⟨name, "ensure this value has at most " ++ toString m ++ " characters"⟩
        else .ok s
      | none => .ok s

/-- Validation of the required `age` field: `Field(..., gt=0, le=115)`. -/
def vAge (v : Option Int) : Except FieldError Int :=
  match v with
  | none => .error ⟨"age", "field required"⟩
  | some a =>
    if a ≤ 0 then .error ⟨"age", "ensure this value is greater than 0"⟩
    else if 115 < a then .error ⟨"age", "ensure this value is less than or equal to 115"⟩
    else .ok a

/-- Validation of the optional `hair_color` field: absent is accepted as
`None`; a present string must be one of the five enum values. -/
def vHairColor (v : Option String) : Except FieldError (Option HairColor) :=
  match v with
  | none => .ok none
  | some s =>
    match HairColor.ofString? s with
    | some c => .ok (some c)
    | none => .error ⟨"hair_color", "value is not a valid enumeration member"⟩

/-- Validation of the path parameter `person_id`: `Path(..., gt=0)`. -/
def vPersonId (pid : Int) : Except FieldError Int :=
  if 0 < pid then .ok pid
  else .error ⟨"person_id", "ensure this value is greater than 0"⟩

/-- The errors contributed by one field validator (none on success). -/
def errs1 {α : Type} : Except FieldError α → List FieldError
  | .error e => [e]
  | .ok _ => []

/-- The errors contributed by one validated model (none on success). -/
def errsL {α : Type} : Except (List FieldError) α → List FieldError
  | .error es => es
  | .ok _ => []

/-- Pydantic validation of a raw `Person` payload: every field is checked
and the failures are collected together, in field declaration order. -/
def Person.validate (r : RawPerson) : Except (List FieldError) Person :=
  match vStr "first_name" 1 (some 50) r.first_name,
        vStr "last_name" 1 (some 50) r.last_name,
        vAge r.age,
        vHairColor r.hair_color,
        vStr "password" 8 none r.password with
  | .ok fn, .ok ln, .ok a, .ok hc, .ok pw =>
    .ok { first_name := fn, last_name := ln, age := a, hair_color := hc,
          is_married := r.is_married, password := pw }
  | rf, rl, ra, rh, rp =>
    .error (errs1 rf ++ errs1 rl ++ errs1 ra ++ errs1 rh ++ errs1 rp)

/-- Pydantic validation of a raw `Location` payload. -/
def Location.validate (r : RawLocation) : Except (List FieldError) Location :=
  match vStr "city" 1 (some 50) r.city,
        vStr "state" 1 (some 50) r.state,
        vStr "country" 1 (some 50) r.country with
  | .ok c, .ok st, .ok co => .ok ⟨c, st, co⟩
  | rc, rs, rco => .error (errs1 rc ++ errs1 rs ++ errs1 rco)

/-- JSON serialization of a `PersonBase`, fields in declaration order;
the enum serializes to its value, `None` to `null`. -/
def PersonBase.serialize (p : PersonBase) : List (String × JScalar) :=
  [("first_name", .s p.first_name),
   ("last_name", .s p.last_name),
   ("age", .i p.age),
   ("hair_color", match p.hair_color with | none => .null | some c => .s c.val),
   ("is_married", match p.is_married with | none => .null | some b => .b b)]

/-- JSON serialization of a full `Person` (what FastAPI emits when no
`response_model` filters the returned object): base fields plus password. -/
def Person.serialize (p : Person) : List (String × JScalar) :=
  PersonBase.serialize p.toPersonBase ++ [("password", .s p.password)]

/-- The `response_model=PersonOut` filtering applied by FastAPI to a
returned `Person`: only the `PersonOut` fields survive. -/
def Person.toOut (p : Person) : PersonOut :=
  ⟨p.toPersonBase⟩

/-- JSON serialization of a `PersonOut`. -/
def PersonOut.serialize (p : PersonOut) : List (String × JScalar) :=
  PersonBase.serialize p.toPersonBase

/-- The fixed existence set `persons = [1, 2, 3, 4, 5]` of `main.py`. -/
def persons : List Int := [1, 2, 3, 4, 5]

/-- Endpoint `POST /person/new` (`create_person`): validate the `Person` body
(422 with the collected errors on failure); on success the handler returns
the person, which FastAPI serializes through `response_model=PersonOut`,
with status 201. -/
def create_person (rp : RawPerson) : HttpResponse :=
  match Person.validate rp with
  | .error es => ⟨422, .errors es⟩
  | .ok p => ⟨201, .obj (PersonOut.serialize p.toOut)⟩

/-- Endpoint `GET /person/detail/{person_id}` (`show_person`): the path parameter is
validated with `gt=0` (422 on failure); the handler raises a 404
`HTTPException` when the id is not in `persons`, and otherwise returns
`{person_id: "It exists!"}` (the integer key serializes as its decimal
string). -/
def show_person (person_id : Int) : HttpResponse :=
  match vPersonId person_id with
  | .error e => ⟨422, .errors [e]⟩
  | .ok _ =>
    if person_id ∉ persons then
      ⟨404, .obj [("detail", .s "¡This person doesn\x27t exist!")]⟩
    else
      ⟨200, .obj [(toString person_id, .s "It exists!")]⟩

/-- Endpoint `PUT /person/{person_id}` (`update_person`): path parameter `gt=0` and
the two bodies are validated, all failures collected into one 422; on
success the handler returns the person. The decorator declares no
`response_model`, so the returned `Person` is serialized whole. -/
def update_person (person_id : Int) (rp : RawPerson) (rl : RawLocation) :
    HttpResponse :=
  match vPersonId person_id, Person.validate rp, Location.validate rl with
  | .ok _, .ok p, .ok _ => ⟨200, .obj (Person.serialize p)⟩
  | r1, r2, r3 => ⟨422, .errors (errs1 r1 ++ errsL r2 ++ errsL r3)⟩

/-- Raw form payload for `POST /login`. -/
structure RawLogin where
  username : Option String
  password : Option String
deriving DecidableEq

/-- The `LoginOut(username=username)` construction inside the handler:
pydantic enforces `max_length=20` on `username` and fills the default
`message`. A failure here is an exception inside the handler body. -/
def LoginOut.build (u : String) : Except FieldError LoginOut :=
  if u.length ≤ 20 then .ok { username := u }
  else .error ⟨"username", "ensure this value has at most 20 characters"⟩

/-- Endpoint `POST /login` (`login`): both form fields are required (422 when
missing); the handler returns `LoginOut(username=username)` — no credential
check — serialized through `response_model=LoginOut` with status 200. A
pydantic failure inside the handler surfaces as a 500. -/
def login (r : RawLogin) : HttpResponse :=
  match vStr "username" 0 none r.username, vStr "password" 0 none r.password with
  | .ok u, .ok _ =>
    match LoginOut.build u with
    | .ok out => ⟨200, .obj [("username", .s out.username), ("message", .s out.message)]⟩
    | .error _ => ⟨500, .scalar (.s "Internal Server Error")⟩
  | r1, r2 => ⟨422, .errors (errs1 r1 ++ errs1 r2)⟩

/-- Raw inputs of `POST /contact`: four form fields, the optional
`user-agent` header and the optional `ads` cookie (both default `None`). -/
structure RawContact where
  first_name : Option String
  last_name : Option String
  email : Option String
  message : Option String
  user_agent : Option String
  ads : Option String
deriving DecidableEq

/-- Shallow model of the third-party `EmailStr` format check used by the
`email` form field: one `@` separating a non-empty local part from a
non-empty domain that contains a dot. -/
def isEmailStr (s : String) : Bool :=
  let cs := s.toList
  let lp := cs.takeWhile (· ≠ '@')
  match cs.dropWhile (· ≠ '@') with
  | '@' :: dom => !lp.isEmpty && !dom.isEmpty && dom.contains '.' && !dom.contains '@'
  | _ => false

/-- Validation of the required `email` form field. -/
def vEmail (v : Option String) : Except FieldError String :=
  match v with
  | none => .error ⟨"email", "field required"⟩
  | some s =>
    if isEmailStr s then .ok s
    else .error ⟨"email", "value is not a valid email address"⟩

/-- Endpoint `POST /contact` (`contact`): the four form fields are validated (422 on
failure, errors collected); `user_agent` and `ads` need no validation.
The handler returns `user_agent` itself: the body is the bare user-agent
string, or `null` when the header was absent. -/
def contact (r : RawContact) : HttpResponse :=
  match vStr "first_name" 1 (some 20) r.first_name,
        vStr "last_name" 1 (some 20) r.last_name,
        vEmail r.email,
        vStr "message" 20 none r.message with
  | .ok _, .ok _, .ok _, .ok _ =>
    ⟨200, match r.user_agent with
          | none => .scalar .null
          | some ua => .scalar (.s ua)⟩
  | r1, r2, r3, r4 => ⟨422, .errors (errs1 r1 ++ errs1 r2 ++ errs1 r3 ++ errs1 r4)⟩

/-- An uploaded file: declared filename, declared content type, and the
byte stream (each entry one byte). -/
structure RawUpload where
  filename : String
  content_type : String
  content : List Nat

/-- Round a rational to the nearest integer, ties to even — the rounding of
CPython `round` (the values this app rounds, `n/1024`, are exactly
representable, so the float detour introduces no error). -/
def roundHalfEven (x : ℚ) : ℤ :=
  if x - ⌊x⌋ < 1 / 2 then ⌊x⌋
  else if 1 / 2 < x - ⌊x⌋ then ⌊x⌋ + 1
  else if ⌊x⌋ % 2 = 0 then ⌊x⌋ else ⌊x⌋ + 1

/-- Python `round(x, ndigits=2)`: round to the nearest multiple of 1/100,
ties to even. -/
def pyRound2 (x : ℚ) : ℚ :=
  (roundHalfEven (100 * x) : ℚ) / 100

/-- Endpoint `POST /post-image` (`post_image`): reads the stream once and answers
with the filename, the content type and `round(len(bytes)/1024, 2)`. -/
def post_image (img : RawUpload) : HttpResponse :=
  ⟨200, .obj [("Filename", .s img.filename),
              ("Format", .s img.content_type),
              ("Size(kb)", .q (pyRound2 ((img.content.length : ℚ) / 1024)))]⟩

/-- The `Size(kb)` field of a response, when present. -/
def sizeKbOf (r : HttpResponse) : Option ℚ :=
  match r.body with
  | .obj fs =>
    match fs.lookup "Size(kb)" with
    | some (.q v) => some v
    | _ => none
  | _ => none

/-- A concrete valid `Person` payload (the spec scenario). -/
def rawAna : RawPerson :=
  ⟨some "Ana", some "Lopez", some 30, none, none, some "secret123"⟩

/-- The validated person of `rawAna`. -/
def personAna : Person :=
  { first_name := "Ana", last_name := "Lopez", age := 30, hair_color := none,
    is_married := none, password := "secret123" }

/-- A concrete `Person` payload whose age is out of range. -/
def rawBadAge : RawPerson :=
  ⟨some "Ana", some "Lopez", some 200, none, none, some "secret123"⟩

/-- A concrete valid `Location` payload. -/
def rawLocNY : RawLocation :=
  ⟨some "New York", some "New York", some "United States"⟩

/-- The validated location of `rawLocNY`. -/
def locNY : Location := ⟨"New York", "New York", "United States"⟩

/-- A second, different valid `Location` payload. -/
def rawLocLima : RawLocation := ⟨some "Lima", some "Lima", some "Peru"⟩

/-- The validated location of `rawLocLima`. -/
def locLima : Location := ⟨"Lima", "Lima", "Peru"⟩

/-- A concrete valid `contact` request without a user-agent header. -/
def rawContactAna : RawContact :=
  ⟨some "Ana", some "Lopez", some "ana@mail.com",
   some "This is a test message with enough length.", none, none⟩

/-- A concrete upload of exactly 2048 bytes. -/
def file2048 : RawUpload := ⟨"a.png", "image/png", List.replicate 2048 0⟩

/-! Helper lemmas. -/

/-- Round-half-even lands within one half of its argument. -/
theorem abs_roundHalfEven_sub_le (x : ℚ) :
    |(roundHalfEven x : ℚ) - x| ≤ 1 / 2 := by
  have h0 : (⌊x⌋ : ℚ) ≤ x := Int.floor_le x
  have h1 : x < ⌊x⌋ + 1 := Int.lt_floor_add_one x
  unfold roundHalfEven
  split_ifs with hlt hgt hev <;>
    rw [abs_le] <;> constructor <;> push_cast <;> linarith

/-- Python 2-digit rounding lands within 1/200 of its argument. -/
theorem pyRound2_close (x : ℚ) : |pyRound2 x - x| ≤ 1 / 200 := by
  have h := abs_roundHalfEven_sub_le (100 * x)
  have e : pyRound2 x - x = ((roundHalfEven (100 * x) : ℚ) - 100 * x) / 100 := by
    unfold pyRound2; ring
  rw [e, abs_div]
  have h100 : |(100 : ℚ)| = 100 := by norm_num
  rw [h100, div_le_div_iff₀ (by norm_num) (by norm_num : (0 : ℚ) < 200)]
  nlinarith [h]

/-- Python 2-digit rounding produces a multiple of 1/100. -/
theorem pyRound2_hundredth (x : ℚ) : ∃ k : ℤ, pyRound2 x = (k : ℚ) / 100 :=
  ⟨roundHalfEven (100 * x), rfl⟩

/-- A failing `age` check makes the whole `Person` validation fail, and its
error is among the collected ones. -/
theorem Person.validate_error_of_vAge (r : RawPerson) (e : FieldError)
    (h : vAge r.age = .error e) :
    ∃ es, Person.validate r = .error es ∧ e ∈ es := by
  unfold Person.validate
  rcases h1 : vStr "first_name" 1 (some 50) r.first_name with e1 | v1 <;>
  rcases h2 : vStr "last_name" 1 (some 50) r.last_name with e2 | v2 <;>
  rcases h4 : vHairColor r.hair_color with e4 | v4 <;>
  rcases h5 : vStr "password" 8 none r.password with e5 | v5 <;>
    simp [h, errs1]

/-- A failing `hair_color` check makes the whole `Person` validation fail,
and its error is among the collected ones. -/
theorem Person.validate_error_of_vHair (r : RawPerson) (e : FieldError)
    (h : vHairColor r.hair_color = .error e) :
    ∃ es, Person.validate r = .error es ∧ e ∈ es := by
  unfold Person.validate
  rcases h1 : vStr "first_name" 1 (some 50) r.first_name with e1 | v1 <;>
  rcases h2 : vStr "last_name" 1 (some 50) r.last_name with e2 | v2 <;>
  rcases h3 : vAge r.age with e3 | v3 <;>
  rcases h5 : vStr "password" 8 none r.password with e5 | v5 <;>
    simp [h, errs1]

/-- A failed body validation turns `create_person` into the 422 response. -/
theorem create_person_of_error (r : RawPerson) (es : List FieldError)
    (h : Person.validate r = .error es) :
    create_person r = ⟨422, .errors es⟩ := by
  simp [create_person, h]

/-- A failed person validation makes `update_person` answer 422, whatever
the path parameter and the location body are, and the person body's
collected errors are part of the collected 422 error list. -/
theorem update_person_of_person_error (pid : Int) (rp : RawPerson)
    (rl : RawLocation) (es : List FieldError)
    (h : Person.validate rp = .error es) :
    update_person pid rp rl =
      ⟨422, .errors (errs1 (vPersonId pid) ++ es ++ errsL (Location.validate rl))⟩ := by
  unfold update_person
  rcases h1 : vPersonId pid with e1 | v1 <;>
  rcases h3 : Location.validate rl with e3 | v3 <;>
    simp [h, h1, h3, errs1, errsL]

/-! Claim theorems. -/

/-- C1: for every valid `Person` payload, `POST /person/new` answers 201
with a `PersonOut` body equal to the serialized input minus the `password`
field; no `password` key occurs in the response body. -/
theorem C1_create_person_drops_password (rp : RawPerson) (p : Person)
    (h : Person.validate rp = .ok p) :
    create_person rp = ⟨201, .obj (PersonOut.serialize p.toOut)⟩ ∧
    PersonOut.serialize p.toOut =
      (Person.serialize p).filter (fun kv => kv.1 ≠ "password") ∧
    ∀ v, ("password", v) ∉ PersonOut.serialize p.toOut := by
  refine ⟨by simp [create_person, h], ?_, ?_⟩
  · simp [Person.serialize, PersonBase.serialize, PersonOut.serialize, Person.toOut]
  · simp [PersonOut.serialize, PersonBase.serialize, Person.toOut]

/-- Witness for C1 at the concrete spec scenario payload. -/
theorem C1_witness :
    Person.validate rawAna = .ok personAna ∧
    create_person rawAna = ⟨201, .obj (PersonOut.serialize personAna.toOut)⟩ :=
  ⟨rfl, (C1_create_person_drops_password rawAna personAna rfl).1⟩

/-- C2 (bug evidence): `update_person` declares no `response_model`, so a
valid `PUT /person/1` answers 200 with the full `Person` serialization —
the `password` key, value included, is present in the response body. -/
theorem C2_update_person_leaks_password :
    (update_person 1 rawAna rawLocNY).status = 200 ∧
    update_person 1 rawAna rawLocNY = ⟨200, .obj (Person.serialize personAna)⟩ ∧
    ("password", .s "secret123") ∈ Person.serialize personAna := by
  refine ⟨rfl, rfl, ?_⟩
  simp [Person.serialize, PersonBase.serialize, personAna]

/-- C3: `GET /person/detail/{person_id}` answers 200 with
`{person_id: "It exists!"}` for a positive id in the existence list, 404
with the fixed detail for a positive id outside it, and 422 for a
non-positive id. -/
theorem C3_show_person_cases (pid : Int) :
    (0 < pid → pid ∈ persons →
       show_person pid = ⟨200, .obj [(toString pid, .s "It exists!")]⟩) ∧
    (0 < pid → pid ∉ persons →
       show_person pid = ⟨404, .obj [("detail", .s "¡This person doesn\x27t exist!")]⟩) ∧
    (pid ≤ 0 → (show_person pid).status = 422) := by
  refine ⟨fun hpos hmem => ?_, fun hpos hmem => ?_, fun hle => ?_⟩
  · simp [show_person, vPersonId, hpos, hmem]
  · simp [show_person, vPersonId, hpos, hmem]
  · have hnot : ¬ (0 : Int) < pid := by omega
    simp [show_person, vPersonId, hnot]

/-- Witness for C3 at `person_id = 3`. -/
theorem C3_witness :
    (0 : Int) < 3 ∧ (3 : Int) ∈ persons ∧
    show_person 3 = ⟨200, .obj [(toString (3 : Int), .s "It exists!")]⟩ :=
  ⟨by decide, by decide, (C3_show_person_cases 3).1 (by decide) (by decide)⟩

/-- Counterexample to C4 as stated: `0` is an integer outside `{1,…,5}`,
yet `GET /person/detail/0` answers 422 (path validation), not 404. -/
theorem C4_counterexample :
    (0 : Int) ∉ persons ∧ (show_person 0).status = 422 ∧
    ¬ (show_person 0).status = 404 := by
  refine ⟨by decide, rfl, by decide⟩

/-- C4 as amended: for every positive id outside the existence list the
response is 404 with a non-empty detail message; for every id in the list
it is 200 with `{person_id: "It exists!"}`. -/
theorem C4_amended_show_person (pid : Int) :
    (0 < pid → pid ∉ persons →
       (show_person pid).status = 404 ∧
       ∃ m, (show_person pid).body = .obj [("detail", .s m)] ∧ m ≠ "") ∧
    (pid ∈ persons →
       show_person pid = ⟨200, .obj [(toString pid, .s "It exists!")]⟩) := by
  constructor
  · intro hpos hmem
    have h : show_person pid =
        ⟨404, .obj [("detail", .s "¡This person doesn\x27t exist!")]⟩ := by
      simp [show_person, vPersonId, hpos, hmem]
    rw [h]
    exact ⟨rfl, "¡This person doesn\x27t exist!", rfl, by decide⟩
  · intro hmem
    have hpos : 0 < pid := by
      simp [persons] at hmem
      rcases hmem with h | h | h | h | h <;> omega
    simp [show_person, vPersonId, hpos, hmem]

/-- Witness for the amended C4 at `person_id = 7`. -/
theorem C4_witness :
    (0 : Int) < 7 ∧ (7 : Int) ∉ persons ∧ (show_person 7).status = 404 :=
  ⟨by decide, by decide, ((C4_amended_show_person 7).1 (by decide) (by decide)).1⟩

/-- C5: an `age` value outside `(0, 115]` makes person validation fail —
`create_person` answers 422 with the collected errors naming the `age`
field, and `update_person` answers 422 for any other inputs, again with an
error list naming the `age` field; an `age` inside the interval passes the
age check. -/
theorem C5_age_bounds (rp : RawPerson) (a : Int) (ha : rp.age = some a) :
    ((a ≤ 0 ∨ 115 < a) →
       ∃ es, Person.validate rp = .error es ∧
         create_person rp = ⟨422, .errors es⟩ ∧
         (∃ e ∈ es, e.field = "age") ∧
         ∀ pid rl, ∃ es2, update_person pid rp rl = ⟨422, .errors es2⟩ ∧
           ∃ e2 ∈ es2, e2.field = "age") ∧
    (0 < a → a ≤ 115 → vAge rp.age = .ok a) := by
  constructor
  · intro hout
    have hv : ∃ e, vAge rp.age = .error e ∧ e.field = "age" := by
      rw [ha]
      rcases hout with h | h
      · exact ⟨⟨"age", "ensure this value is greater than 0"⟩, by simp [vAge, h], rfl⟩
      · have hpos : ¬ a ≤ 0 := by omega
        exact ⟨⟨"age", "ensure this value is less than or equal to 115"⟩,
               by simp [vAge, hpos, h], rfl⟩
    obtain ⟨e, he, hf⟩ := hv
    obtain ⟨es, hes, hmem⟩ := Person.validate_error_of_vAge rp e he
    refine ⟨es, hes, create_person_of_error rp es hes, ⟨e, hmem, hf⟩,
            fun pid rl => ⟨errs1 (vPersonId pid) ++ es ++ errsL (Location.validate rl),
                           update_person_of_person_error pid rp rl es hes,
                           e, by simp [hmem], hf⟩⟩
  · intro h1 h2
    rw [ha]
    have hpos : ¬ a ≤ 0 := by omega
    have hle : ¬ 115 < a := by omega
    simp [vAge, hpos, hle]

/-- Witness for C5 at a payload with `age = 200`, exercising both the
creation and the update endpoint. -/
theorem C5_witness :
    rawBadAge.age = some 200 ∧ (create_person rawBadAge).status = 422 ∧
    (update_person 1 rawBadAge rawLocNY).status = 422 := by
  obtain ⟨es, hval, hcp, hage, hup⟩ :=
    (C5_age_bounds rawBadAge 200 rfl).1 (Or.inr (by decide))
  obtain ⟨es2, hup2, e2, hmem2, hf2⟩ := hup 1 rawLocNY
  exact ⟨rfl, by rw [hcp], by rw [hup2]⟩

/-- C6: the `hair_color` check accepts exactly the five literal strings or
an absent value; any other string — `"Brown"` and `"bronw"` included — is
a validation error, and a person payload carrying it is answered 422. -/
theorem C6_hair_color_enum (s : String) :
    ((∃ c, vHairColor (some s) = .ok (some c)) ↔
       s ∈ ["white", "brown", "black", "blonde", "red"]) ∧
    vHairColor none = .ok none ∧
    (s ∉ ["white", "brown", "black", "blonde", "red"] →
       ∃ e, vHairColor (some s) = .error e ∧
         ∀ rp : RawPerson, rp.hair_color = some s →
           (create_person rp).status = 422) ∧
    (∃ e, vHairColor (some "Brown") = .error e) ∧
    (∃ e, vHairColor (some "bronw") = .error e) := by
  refine ⟨⟨fun ⟨c, hc⟩ => ?_, fun hs => ?_⟩, rfl, fun hs => ?_, ⟨_, rfl⟩, ⟨_, rfl⟩⟩
  · simp only [vHairColor] at hc
    unfold HairColor.ofString? at hc
    split_ifs at hc <;> simp_all
  · simp only [List.mem_cons, List.not_mem_nil, or_false] at hs
    rcases hs with h | h | h | h | h <;> subst h <;> exact ⟨_, rfl⟩
  · have he : vHairColor (some s) =
        .error ⟨"hair_color", "value is not a valid enumeration member"⟩ := by
      simp only [vHairColor]
      unfold HairColor.ofString?
      split_ifs with h1 h2 h3 h4 h5 <;> simp_all
    refine ⟨_, he, fun rp hrp => ?_⟩
    obtain ⟨es, hes, hmem⟩ :=
      Person.validate_error_of_vHair rp _ (by rw [hrp]; exact he)
    rw [create_person_of_error rp es hes]
/-- Witness for C6: `"brown"` is accepted, an absent value is accepted. -/
theorem C6_witness :
    vHairColor none = .ok none ∧
    (∃ c, vHairColor (some "brown") = .ok (some c)) :=
  ⟨(C6_hair_color_enum "brown").2.1,
   (C6_hair_color_enum "brown").1.mpr (by decide)⟩

/-- C7: with both form fields present and the username within 20
characters, `POST /login` answers 200 with the username and the fixed
message, and the response never depends on the submitted password. -/
theorem C7_login_ignores_password (u p1 p2 : String) (hu : u.length ≤ 20) :
    login ⟨some u, some p1⟩ =
      ⟨200, .obj [("username", .s u), ("message", .s "Login Succesfully!")]⟩ ∧
    login ⟨some u, some p1⟩ = login ⟨some u, some p2⟩ := by
  have h : ∀ pw : String, login ⟨some u, some pw⟩ =
      ⟨200, .obj [("username", .s u), ("message", .s "Login Succesfully!")]⟩ := by
    intro pw
    simp [login, vStr, LoginOut.build, hu]
  exact ⟨h p1, (h p1).trans (h p2).symm⟩

/-- Witness for C7 at a concrete username and two passwords. -/
theorem C7_witness :
    "miguel2021".length ≤ 20 ∧
    login ⟨some "miguel2021", some "pw1"⟩ = login ⟨some "miguel2021", some "pw2"⟩ :=
  ⟨by decide,
   (C7_login_ignores_password "miguel2021" "pw1" "pw2" (by decide)).2⟩

/-- C8: every `POST /post-image` answer is a 200 whose `Size(kb)` field is
the byte count divided by 1024 and rounded to two decimals: a multiple of
1/100 within 1/200 of the exact ratio; a 2048-byte upload yields 2. -/
theorem C8_post_image_size :
    (∀ img : RawUpload,
       (post_image img).status = 200 ∧
       sizeKbOf (post_image img) =
         some (pyRound2 ((img.content.length : ℚ) / 1024)) ∧
       (∃ k : ℤ, pyRound2 ((img.content.length : ℚ) / 1024) = (k : ℚ) / 100) ∧
       |pyRound2 ((img.content.length : ℚ) / 1024) -
          (img.content.length : ℚ) / 1024| ≤ 1 / 200) ∧
    sizeKbOf (post_image file2048) = some 2 := by
  constructor
  · intro img
    refine ⟨rfl, ?_, pyRound2_hundredth _, pyRound2_close _⟩
    simp [post_image, sizeKbOf, List.lookup]
  · have h : file2048.content.length = 2048 := List.length_replicate 2048 0
    have h2 : sizeKbOf (post_image file2048) =
        some (pyRound2 ((2048 : ℚ) / 1024)) := by
      simp [post_image, sizeKbOf, List.lookup, h]
    rw [h2]
    norm_num [pyRound2, roundHalfEven]

/-- C9: `update_person` never reads the location body — two valid requests
differing only in the location get the same response. -/
theorem C9_update_person_ignores_location (pid : Int) (rp : RawPerson)
    (l1 l2 : RawLocation) (p : Person) (loc1 loc2 : Location)
    (hpid : 0 < pid)
    (hp : Person.validate rp = .ok p)
    (h1 : Location.validate l1 = .ok loc1)
    (h2 : Location.validate l2 = .ok loc2) :
    update_person pid rp l1 = update_person pid rp l2 := by
  simp [update_person, vPersonId, hpid, hp, h1, h2]

/-- Witness for C9 at two different concrete locations. -/
theorem C9_witness :
    update_person 1 rawAna rawLocNY = update_person 1 rawAna rawLocLima :=
  C9_update_person_ignores_location 1 rawAna rawLocNY rawLocLima
    personAna locNY locLima (by decide) rfl rfl rfl

/-- C10: with the four form fields valid, `POST /contact` answers 200 with
the raw user-agent header as the whole body; the header is optional, so a
request without it still answers 200 with a `null` body. -/
theorem C10_contact_echoes_user_agent (r : RawContact) (f1 f2 em ms : String)
    (h1 : vStr "first_name" 1 (some 20) r.first_name = .ok f1)
    (h2 : vStr "last_name" 1 (some 20) r.last_name = .ok f2)
    (h3 : vEmail r.email = .ok em)
    (h4 : vStr "message" 20 none r.message = .ok ms) :
    contact r = ⟨200, match r.user_agent with
                     | none => .scalar .null
                     | some ua => .scalar (.s ua)⟩ ∧
    (r.user_agent = none → contact r = ⟨200, .scalar .null⟩) := by
  have h : contact r = ⟨200, match r.user_agent with
                            | none => .scalar .null
                            | some ua => .scalar (.s ua)⟩ := by
    simp [contact, h1, h2, h3, h4]
  exact ⟨h, fun hn => by rw [h, hn]⟩

/-- Witness for C10 at a concrete request without a user-agent header. -/
theorem C10_witness :
    rawContactAna.user_agent = none ∧
    contact rawContactAna = ⟨200, .scalar .null⟩ :=
  ⟨rfl,
   (C10_contact_echoes_user_agent rawContactAna "Ana" "Lopez" "ana@mail.com"
      "This is a test message with enough length." rfl rfl rfl rfl).2 rfl⟩
